import Mathlib

/-!
Shallow embedding of the Trade Pilot X multi-factor scoring engine
(`api/core/scoring_engine.py`, class `ScoringEngine`) and verification of
its specified properties.

Python dictionaries with optional keys are embedded as structures whose
fields are `Option`-typed; `dict.get(key, default)` becomes `Option.getD`.
Python floats are embedded as rationals: every quantity the engine
manipulates is a small multiple of 1/4 or 1/5, far from any binary
rounding boundary, so exact rational arithmetic agrees with the float
computation.  Python `round` (banker's rounding, half to even) is embedded
as `pyRound`.  The one dynamically-typed field the scoring math compares
against numbers, `retail["long_pct"]`, is embedded as a `PyVal` that can
be a number or a string; comparing a string raises, which the embedding
models with `Except`.  The wall clock read by `datetime.now()` is passed
in explicitly as the `now` argument.
-/

/-- Python `str.lower()`: charwise lowercasing of the string. -/
def pyLower (s : String) : String := ⟨s.data.map Char.toLower⟩

/-- Python `round`: round to the nearest integer, ties to the even integer. -/
def pyRound (q : ℚ) : ℤ :=
  let f : ℤ := ⌊q⌋
  let r : ℚ := q - f
  if r < 1/2 then f
  else if 1/2 < r then f + 1
  else if f % 2 = 0 then f else f + 1

/-- A dynamically typed Python value: a number or a string. -/
inductive PyVal where
  | num (q : ℚ)
  | str (s : String)
deriving DecidableEq, Repr

/-- Check whether a `PyVal` is numeric. -/
def PyVal.isNum : PyVal → Bool
  | .num _ => true
  | .str _ => false

/-- The `technical` sub-dictionary of an asset observation. -/
structure Technical where
  trend : Option String := none
  above_20_sma : Option Bool := none
  above_50_sma : Option Bool := none
  above_100_sma : Option Bool := none
  above_200_sma : Option Bool := none
  volatility : Option String := none
deriving DecidableEq, Repr

/-- The `cot` (institutional positioning) sub-dictionary. -/
structure Cot where
  positioning : Option String := none
  weekly_change : Option ℚ := none
deriving DecidableEq, Repr

/-- The `retail` sub-dictionary; `long_pct` is dynamically typed in the
source, so it is embedded as a `PyVal`. -/
structure Retail where
  long_pct : Option PyVal := none
  short_pct : Option ℚ := none
deriving DecidableEq, Repr

/-- The `economic` sub-dictionary: the 14 canonical surprise metrics.
A `none` field covers both an absent key and an explicit null, both of
which contribute nothing in the source. -/
structure Economic where
  gdp_surprise : Option ℚ := none
  mPMI_surprise : Option ℚ := none
  sPMI_surprise : Option ℚ := none
  retail_surprise : Option ℚ := none
  cpi_surprise : Option ℚ := none
  ppi_surprise : Option ℚ := none
  pce_surprise : Option ℚ := none
  rate_surprise : Option ℚ := none
  confidence_surprise : Option ℚ := none
  nfp_surprise : Option ℚ := none
  unemployment_surprise : Option ℚ := none
  claims_surprise : Option ℚ := none
  adp_surprise : Option ℚ := none
  jolts_surprise : Option ℚ := none
deriving DecidableEq, Repr

/-- The `seasonality` sub-dictionary. -/
structure Seasonality where
  current_month_avg_return : Option ℚ := none
deriving DecidableEq, Repr

/-- A full asset observation (`asset_data` in the source); an absent
sub-dictionary behaves exactly like an empty one, so both are embedded as
the all-default structure. -/
structure AssetData where
  symbol : Option String := none
  technical : Technical := {}
  cot : Cot := {}
  retail : Retail := {}
  economic : Economic := {}
  seasonality : Seasonality := {}
deriving DecidableEq, Repr

/-- The `breakdown` field of a score report: a copy of the raw inputs. -/
structure Breakdown where
  technical : Technical
  cot : Cot
  retail : Retail
  economic : Economic
deriving DecidableEq, Repr

/-- A score report as returned by `calculate_asset_score`.  Keys that are
present only on one of the two return paths (`seasonality_score`,
`timestamp`, `breakdown` on success; `error` on the fallback path) are
`Option`-typed, `none` meaning the key is absent. -/
structure Report where
  symbol : String
  total_score : ℤ
  technical_score : ℤ
  sentiment_score : ℤ
  eco_score : ℤ
  seasonality_score : Option ℤ
  bias : String
  timestamp : Option String
  breakdown : Option Breakdown
  error : Option String
deriving DecidableEq, Repr

/-- The `self.weights` dictionary set up in `ScoringEngine.__init__`;
it is never read by any scoring method. -/
def weights : List (String × ℚ) := [("technical", 1), ("sentiment", 1), ("eco", 1)]

/-- Contribution of one SMA flag inside `_calculate_technical_score`:
`+0.25` if `above is True`, `-0.25` if `above is False`, else `0`. -/
def smaContrib (above : Option Bool) : ℚ :=
  match above with
  | some true => 0.25
  | some false => -0.25
  | none => 0

/-- Embedding of `ScoringEngine._calculate_technical_score`. -/
def calcTechnicalScore (t : Technical) : ℤ :=
  let trend := pyLower (t.trend.getD "neutral")
  let score : ℚ := if trend = "bullish" then 2 else if trend = "bearish" then -2 else 0
  let score := score + smaContrib t.above_20_sma
  let score := score + smaContrib t.above_50_sma
  let score := score + smaContrib t.above_100_sma
  let score := score + smaContrib t.above_200_sma
  let volatility := pyLower (t.volatility.getD "normal")
  let score := if volatility = "high" then score * 0.8 else score
  max (-3) (min 3 (pyRound score))

/-- Embedding of `ScoringEngine._calculate_sentiment_score`.  The retail
contribution compares `long_pct` against numbers; when the value is a
string Python raises a `TypeError`, embedded as `Except.error`. -/
def calcSentimentScore (cot : Cot) (retail : Retail) : Except String ℤ :=
  let score : ℤ := 0
  let pos := pyLower (cot.positioning.getD "neutral")
  let score := if pos = "bullish" then score + 1 else if pos = "bearish" then score - 1 else score
  let change := cot.weekly_change.getD 0
  let score := if change > 2 then score + 1 else if change < -2 then score - 1 else score
  match retail.long_pct.getD (PyVal.num 50) with
  | PyVal.str _ => Except.error "TypeError: comparison not supported between str and int"
  | PyVal.num p =>
    let score := if p > 60 then score - 1 else if p < 40 then score + 1 else score
    Except.ok (max (-2) (min 2 score))

/-- Contribution of one economic surprise metric inside
`_calculate_eco_score`: `+1` if positive, `-1` if negative, `0` if the
metric is absent, null, or exactly zero. -/
def surpriseContrib (v : Option ℚ) : ℤ :=
  match v with
  | none => 0
  | some x => if x > 0 then 1 else if x < 0 then -1 else 0

/-- Embedding of `ScoringEngine._calculate_eco_score`. -/
def calcEcoScore (e : Economic) : ℤ :=
  let score :=
    surpriseContrib e.gdp_surprise + surpriseContrib e.mPMI_surprise +
    surpriseContrib e.sPMI_surprise + surpriseContrib e.retail_surprise +
    surpriseContrib e.cpi_surprise + surpriseContrib e.ppi_surprise +
    surpriseContrib e.pce_surprise + surpriseContrib e.rate_surprise +
    surpriseContrib e.confidence_surprise + surpriseContrib e.nfp_surprise +
    surpriseContrib e.unemployment_surprise + surpriseContrib e.claims_surprise +
    surpriseContrib e.adp_surprise + surpriseContrib e.jolts_surprise
  max (-5) (min 5 score)

/-- Embedding of `ScoringEngine._calculate_seasonality_score`. -/
def calcSeasonalityScore (s : Seasonality) : ℤ :=
  let v := s.current_month_avg_return.getD 0
  if v > 1 then 2
  else if v > 0.5 then 1
  else if v < -1 then -2
  else if v < -0.5 then -1
  else 0

/-- Embedding of `ScoringEngine._determine_bias`. -/
def determineBias (total_score : ℤ) : String :=
  if total_score ≥ 8 then "Very Bullish"
  else if total_score ≥ 5 then "Bullish"
  else if total_score ≥ 3 then "Bullish"
  else if total_score > 0 then "Neutral"
  else if total_score = 0 then "Neutral"
  else if total_score > -3 then "Neutral"
  else if total_score > -5 then "Bearish"
  else if total_score > -8 then "Bearish"
  else "Very Bearish"

/-- Embedding of `ScoringEngine.calculate_asset_score`.  The `now`
argument is the wall-clock string the source obtains from
`datetime.now().isoformat()`.  The broad `except` handler of the source
becomes the `Except.error` branch, producing the fallback report. -/
def calculateAssetScore (now : String) (a : AssetData) : Report :=
  let symbol := a.symbol.getD "UNKNOWN"
  let technical_score := calcTechnicalScore a.technical
  match calcSentimentScore a.cot a.retail with
  | Except.error e =>
    { symbol := symbol
      total_score := 0
      technical_score := 0
      sentiment_score := 0
      eco_score := 0
      seasonality_score := none
      bias := "Neutral"
      timestamp := none
      breakdown := none
      error := some e }
  | Except.ok sentiment_score =>
    let eco_score := calcEcoScore a.economic
    let seasonality_bonus := calcSeasonalityScore a.seasonality
    let total_score := technical_score + sentiment_score + eco_score + seasonality_bonus
    { symbol := symbol
      total_score := total_score
      technical_score := technical_score
      sentiment_score := sentiment_score
      eco_score := eco_score
      seasonality_score := some seasonality_bonus
      bias := determineBias total_score
      timestamp := some now
      breakdown := some ⟨a.technical, a.cot, a.retail, a.economic⟩
      error := none }

/-- Ordering used by `rank_assets`: descending by `total_score`.  Python
`list.sort(key=..., reverse=True)` is a stable descending sort, which is
exactly `List.insertionSort` with this relation. -/
def rankRel (x y : Report) : Prop := y.total_score ≤ x.total_score

instance : DecidableRel rankRel := fun x y => Int.decLe y.total_score x.total_score

instance : IsTotal Report rankRel := ⟨fun x y => le_total y.total_score x.total_score⟩

instance : IsTrans Report rankRel := ⟨fun _ _ _ h1 h2 => le_trans h2 h1⟩

/-- Embedding of `ScoringEngine.rank_assets`: score every asset, then
stably sort descending by total score. -/
def rankAssets (now : String) (assets : List AssetData) : List Report :=
  List.insertionSort rankRel (assets.map (calculateAssetScore now))

/-- Lowercasing the capitalized label strings used in observations. -/
theorem pyLower_eval :
    pyLower "Bullish" = "bullish" ∧ pyLower "Bearish" = "bearish" ∧
    pyLower "Neutral" = "neutral" ∧ pyLower "Normal" = "normal" ∧
    pyLower "High" = "high" ∧ pyLower "neutral" = "neutral" ∧
    pyLower "normal" = "normal" :=
  ⟨rfl, rfl, rfl, rfl, rfl, rfl, rfl⟩

/-! Spec-side formulations, written from the specification's wording, to be
compared with the embedded source functions. -/

/-- Trend contribution as the spec words it: Bullish `+2`, Bearish `-2`,
Neutral or absent `0` (matching is case-insensitive in the source). -/
def trendContribSpec (trend : Option String) : ℚ :=
  match trend with
  | none => 0
  | some s => if pyLower s = "bullish" then 2 else if pyLower s = "bearish" then -2 else 0

/-- Total SMA contribution as the spec words it: for each of the four
periods 20/50/100/200, `+0.25` above, `-0.25` below, `0` unknown. -/
def smaContribTotalSpec (t : Technical) : ℚ :=
  smaContrib t.above_20_sma + smaContrib t.above_50_sma +
  smaContrib t.above_100_sma + smaContrib t.above_200_sma

/-- Volatility damping factor as the spec words it: `0.8` when volatility
is High, otherwise `1`. -/
def volatilityDampSpec (volatility : Option String) : ℚ :=
  if pyLower (volatility.getD "normal") = "high" then 0.8 else 1

/-- Technical score as the spec words it: damp the sum of trend and SMA
contributions, round to the nearest integer, clamp to `[-3, 3]`. -/
def technicalScoreSpec (t : Technical) : ℤ :=
  max (-3) (min 3 (pyRound ((trendContribSpec t.trend + smaContribTotalSpec t) * volatilityDampSpec t.volatility)))

/-- Bias ladder exactly as the claim lists it, first match wins. -/
def biasLadderSpec (total : ℤ) : String :=
  if total ≥ 8 then "Very Bullish"
  else if total ≥ 3 then "Bullish"
  else if total > 0 then "Neutral"
  else if total = 0 then "Neutral"
  else if total > -3 then "Neutral"
  else if total > -5 then "Bearish"
  else if total > -8 then "Bearish"
  else "Very Bearish"

/-- The 14 canonical economic surprise metrics of an observation, in the
order the source enumerates them. -/
def ecoMetricsSpec (e : Economic) : List (Option ℚ) :=
  [e.gdp_surprise, e.mPMI_surprise, e.sPMI_surprise, e.retail_surprise,
   e.cpi_surprise, e.ppi_surprise, e.pce_surprise, e.rate_surprise,
   e.confidence_surprise, e.nfp_surprise, e.unemployment_surprise,
   e.claims_surprise, e.adp_surprise, e.jolts_surprise]

/-- Seasonality step function as the spec words it. -/
def seasonalityStepSpec (v : ℚ) : ℤ :=
  if v > 1 then 2
  else if v > 0.5 then 1
  else if v < -1 then -2
  else if v < -0.5 then -1
  else 0

/-- Institutional positioning contribution: Bullish `+1`, Bearish `-1`,
Neutral or absent `0`. -/
def instPositioningContrib (positioning : Option String) : ℤ :=
  match positioning with
  | none => 0
  | some s => if pyLower s = "bullish" then 1 else if pyLower s = "bearish" then -1 else 0

/-- Institutional weekly-change contribution: above `+2` gives `+1`,
below `-2` gives `-1`, else `0`. -/
def weeklyChangeContrib (change : Option ℚ) : ℤ :=
  if change.getD 0 > 2 then 1 else if change.getD 0 < -2 then -1 else 0

/-- Contrarian retail contribution: `long_pct > 60` gives `-1`,
`long_pct < 40` gives `+1`, else `0`. -/
def retailContrib (long_pct : ℚ) : ℤ :=
  if long_pct > 60 then -1 else if long_pct < 40 then 1 else 0

/-! Claim theorems. -/

/-- Scenario input: Bullish trend, all four SMAs above, Normal volatility. -/
def bullishNormalTech : Technical :=
  { trend := some "Bullish"
    above_20_sma := some true
    above_50_sma := some true
    above_100_sma := some true
    above_200_sma := some true
    volatility := some "Normal" }

/-- Scenario input: Bullish trend, all four SMAs above, High volatility. -/
def bullishHighTech : Technical :=
  { bullishNormalTech with volatility := some "High" }

/-- C1: the technical score is the trend contribution plus the four
quarter-point SMA contributions, damped by 0.8 when volatility is High
before rounding, rounded to the nearest integer and clamped to `[-3, 3]`;
in particular Bullish trend with all four SMAs above and Normal volatility
scores 3, and the same observation with High volatility is damped to 2.4
and rounds to 2. -/
theorem C1_technical_score :
    (∀ t : Technical, calcTechnicalScore t = technicalScoreSpec t) ∧
    calcTechnicalScore bullishNormalTech = 3 ∧
    calcTechnicalScore bullishHighTech = 2 := by
  refine ⟨fun t => ?_, ?_, ?_⟩
  · simp only [calcTechnicalScore, technicalScoreSpec, trendContribSpec,
      smaContribTotalSpec, volatilityDampSpec]
    congr 2
    rcases t.trend with _ | s
    · simp only [Option.getD, show pyLower "neutral" = "neutral" from rfl,
        show ("neutral" : String) ≠ "bullish" from by decide,
        show ("neutral" : String) ≠ "bearish" from by decide, if_false, ite_false]
      split_ifs <;> ring_nf
    · simp only [Option.getD]
      split_ifs <;> ring_nf
  · norm_num [calcTechnicalScore, bullishNormalTech, smaContrib, pyRound, pyLower_eval.1,
      pyLower_eval.2.2.2.1, show ("normal" : String) ≠ "high" from by decide]
  · norm_num [calcTechnicalScore, bullishHighTech, bullishNormalTech, smaContrib, pyRound,
      pyLower_eval.1, pyLower_eval.2.2.2.2.1]

/-- C3: the bias label follows the first-match ladder of the claim, and in
particular total 8 is Very Bullish, total 7 is Bullish and total -9 is
Very Bearish. -/
theorem C3_bias_ladder :
    (∀ total : ℤ, determineBias total = biasLadderSpec total) ∧
    determineBias 8 = "Very Bullish" ∧
    determineBias 7 = "Bullish" ∧
    determineBias (-9) = "Very Bearish" := by
  refine ⟨fun total => ?_, ?_, ?_, ?_⟩
  · simp only [determineBias, biasLadderSpec]
    split_ifs <;> first | rfl | (exfalso; omega)
  · norm_num [determineBias]
  · norm_num [determineBias]
  · norm_num [determineBias]

/-- Scenario input: six economic metrics present, four with positive and
two with negative surprises, the other eight absent. -/
def sixMetricEconomic : Economic :=
  { gdp_surprise := some 1.2
    mPMI_surprise := some 0.5
    sPMI_surprise := some 2
    retail_surprise := some (-0.3)
    cpi_surprise := some 0.1
    ppi_surprise := some (-1) }

/-- C5: the economic score is the sum over the 14 canonical metrics of +1
for a strictly positive surprise and -1 for a strictly negative one, with
absent, null or zero metrics contributing nothing, clamped to `[-5, 5]`;
in particular 6 present metrics with 4 positive and 2 negative surprises
yield 2. -/
theorem C5_eco_score :
    (∀ e : Economic, calcEcoScore e = max (-5) (min 5 ((ecoMetricsSpec e).map surpriseContrib).sum)) ∧
    surpriseContrib none = 0 ∧ surpriseContrib (some 0) = 0 ∧
    calcEcoScore sixMetricEconomic = 2 := by
  refine ⟨fun e => ?_, rfl, ?_, ?_⟩
  · simp only [calcEcoScore, ecoMetricsSpec, List.map, List.sum_cons, List.sum_nil]
    congr 2
    ring_nf
  · norm_num [surpriseContrib]
  · norm_num [calcEcoScore, sixMetricEconomic, surpriseContrib]

/-- C6: the seasonality score is the pure strict-threshold step function,
and in particular a month average return of exactly 1.0 scores 1 while
1.01 scores 2. -/
theorem C6_seasonality_step :
    (∀ v : ℚ, calcSeasonalityScore { current_month_avg_return := some v } = seasonalityStepSpec v) ∧
    calcSeasonalityScore { current_month_avg_return := some 1 } = 1 ∧
    calcSeasonalityScore { current_month_avg_return := some 1.01 } = 2 := by
  refine ⟨fun v => rfl, ?_, ?_⟩
  · norm_num [calcSeasonalityScore]
  · norm_num [calcSeasonalityScore]

/-- Clamping an integer to `[lo, hi]` with `max lo (min hi x)` lands inside
the interval. -/
theorem clamp_mem (lo hi x : ℤ) (h : lo ≤ hi) :
    lo ≤ max lo (min hi x) ∧ max lo (min hi x) ≤ hi :=
  ⟨le_max_left _ _, max_le h (min_le_left _ _)⟩

/-- The technical score always lies in `[-3, 3]`. -/
theorem calcTechnicalScore_bounds (t : Technical) :
    -3 ≤ calcTechnicalScore t ∧ calcTechnicalScore t ≤ 3 := by
  simp only [calcTechnicalScore]
  exact clamp_mem _ _ _ (by norm_num)

/-- A successfully computed sentiment score always lies in `[-2, 2]`. -/
theorem calcSentimentScore_ok_bounds (cot : Cot) (retail : Retail) (s : ℤ)
    (h : calcSentimentScore cot retail = Except.ok s) : -2 ≤ s ∧ s ≤ 2 := by
  rcases hl : retail.long_pct.getD (PyVal.num 50) with q | str
  · simp only [calcSentimentScore, hl] at h
    obtain rfl := Except.ok.inj h
    exact clamp_mem _ _ _ (by norm_num)
  · simp only [calcSentimentScore, hl] at h
    exact absurd h (by simp)

/-- The economic score always lies in `[-5, 5]`. -/
theorem calcEcoScore_bounds (e : Economic) :
    -5 ≤ calcEcoScore e ∧ calcEcoScore e ≤ 5 := by
  simp only [calcEcoScore]
  exact clamp_mem _ _ _ (by norm_num)

/-- The seasonality score always lies in `[-2, 2]`. -/
theorem calcSeasonalityScore_bounds (s : Seasonality) :
    -2 ≤ calcSeasonalityScore s ∧ calcSeasonalityScore s ≤ 2 := by
  simp only [calcSeasonalityScore]
  split_ifs <;> omega

/-- C4: a sentiment score over a numeric retail percentage is the
three-contribution vote clamped to `[-2, 2]`; moving retail long
percentage from 59 to 61 never increases the score; and Bearish
positioning with weekly change -3 and retail 75 percent long clamps the
raw -3 to -2. -/
theorem C4_sentiment_score :
    (∀ (cot : Cot) (p : ℚ) (sp : Option ℚ),
      calcSentimentScore cot { long_pct := some (PyVal.num p), short_pct := sp } =
        Except.ok (max (-2) (min 2 (instPositioningContrib cot.positioning +
          weeklyChangeContrib cot.weekly_change + retailContrib p)))) ∧
    (∀ (cot : Cot) (spA spB : Option ℚ), ∃ s59 s61 : ℤ,
      calcSentimentScore cot { long_pct := some (PyVal.num 59), short_pct := spA } = Except.ok s59 ∧
      calcSentimentScore cot { long_pct := some (PyVal.num 61), short_pct := spB } = Except.ok s61 ∧
      s61 ≤ s59) ∧
    calcSentimentScore { positioning := some "Bearish", weekly_change := some (-3) }
      { long_pct := some (PyVal.num 75), short_pct := none } = Except.ok (-2) := by
  have key : ∀ (cot : Cot) (p : ℚ) (sp : Option ℚ),
      calcSentimentScore cot { long_pct := some (PyVal.num p), short_pct := sp } =
        Except.ok (max (-2) (min 2 (instPositioningContrib cot.positioning +
          weeklyChangeContrib cot.weekly_change + retailContrib p))) := by
    intro cot p sp
    rcases hcp : cot.positioning with _ | s
    · simp only [calcSentimentScore, instPositioningContrib, weeklyChangeContrib, retailContrib,
        Option.getD, hcp, show pyLower "neutral" = "neutral" from rfl,
        show ("neutral" : String) ≠ "bullish" from by decide,
        show ("neutral" : String) ≠ "bearish" from by decide, if_false, ite_false]
      congr 3
      split_ifs <;> omega
    · simp only [calcSentimentScore, instPositioningContrib, weeklyChangeContrib, retailContrib,
        Option.getD, hcp]
      congr 3
      split_ifs <;> omega
  refine ⟨key, fun cot spA spB => ?_, ?_⟩
  · refine ⟨_, _, key cot 59 spA, key cot 61 spB, ?_⟩
    have h59 : retailContrib 59 = 0 := by norm_num [retailContrib]
    have h61 : retailContrib 61 = -1 := by norm_num [retailContrib]
    rw [h59, h61]
    exact max_le_max le_rfl (min_le_min le_rfl (by omega))
  · norm_num [calcSentimentScore, pyLower_eval.2.1,
      show ("bearish" : String) ≠ "bullish" from by decide]

/-- Report invariants the spec states for every valid observation: each
sub-score within its documented range, the seasonality key present, and
the total exactly the sum of the four sub-scores, hence in `[-12, 12]`. -/
def ReportInvariants (r : Report) : Prop :=
  ∃ s : ℤ, r.seasonality_score = some s ∧
    -3 ≤ r.technical_score ∧ r.technical_score ≤ 3 ∧
    -2 ≤ r.sentiment_score ∧ r.sentiment_score ≤ 2 ∧
    -5 ≤ r.eco_score ∧ r.eco_score ≤ 5 ∧
    -2 ≤ s ∧ s ≤ 2 ∧
    r.total_score = r.technical_score + r.sentiment_score + r.eco_score + s ∧
    -12 ≤ r.total_score ∧ r.total_score ≤ 12

/-- C2: for every observation whose retail long percentage is numeric (a
valid observation), the produced report satisfies all the sub-score range
invariants and its total is exactly the sum of the four sub-scores. -/
theorem C2_report_invariants (now : String) (a : AssetData)
    (h : (a.retail.long_pct.getD (PyVal.num 50)).isNum = true) :
    ReportInvariants (calculateAssetScore now a) := by
  rcases hc : calcSentimentScore a.cot a.retail with e | sv
  · exfalso
    rcases hl : a.retail.long_pct.getD (PyVal.num 50) with q | str
    · simp only [calcSentimentScore, hl] at hc
      exact absurd hc (by simp)
    · rw [hl] at h
      simp [PyVal.isNum] at h
  · have h1 := calcTechnicalScore_bounds a.technical
    have h2 := calcSentimentScore_ok_bounds a.cot a.retail sv hc
    have h3 := calcEcoScore_bounds a.economic
    have h4 := calcSeasonalityScore_bounds a.seasonality
    simp only [calculateAssetScore, hc, ReportInvariants]
    exact ⟨calcSeasonalityScore a.seasonality, rfl, h1.1, h1.2, h2.1, h2.2, h3.1, h3.2,
      h4.1, h4.2, rfl, by omega, by omega⟩

/-- A fully populated sample observation used as the concrete witness. -/
def sampleAsset : AssetData :=
  { symbol := some "EURUSD"
    technical := bullishNormalTech
    cot := { positioning := some "Bullish", weekly_change := some 3 }
    retail := { long_pct := some (PyVal.num 30), short_pct := some 70 }
    economic := sixMetricEconomic
    seasonality := { current_month_avg_return := some 1.07 } }

/-- Witness for C2: the invariants hold at the concrete sample. -/
theorem C2_report_invariants_witness :
    (sampleAsset.retail.long_pct.getD (PyVal.num 50)).isNum = true ∧
    ReportInvariants (calculateAssetScore "2024-01-01T00:00:00" sampleAsset) :=
  ⟨rfl, C2_report_invariants "2024-01-01T00:00:00" sampleAsset rfl⟩

/-- Observation whose symbol is the empty string, otherwise empty. -/
def emptySymbolObs : AssetData := { symbol := some "" }

/-- Observation whose retail long percentage is a string, not a number. -/
def wrongTypedObs : AssetData :=
  { symbol := some "GOLD"
    retail := { long_pct := some (PyVal.str "seventy"), short_pct := none } }

/-- C7 counterexample: scoring an observation with an empty symbol
produces an ordinary report (no error key, empty symbol copied through)
instead of failing with a ValidationError. -/
theorem C7_counterexample :
    (calculateAssetScore "2024-01-01T00:00:00" emptySymbolObs).error = none ∧
    (calculateAssetScore "2024-01-01T00:00:00" emptySymbolObs).symbol = "" ∧
    (calculateAssetScore "2024-01-01T00:00:00" emptySymbolObs).timestamp =
      some "2024-01-01T00:00:00" :=
  ⟨rfl, rfl, rfl⟩

/-- A numeric retail long percentage makes the sentiment scorer succeed. -/
theorem sentiment_isOk (cot : Cot) (retail : Retail) (q : ℚ)
    (hl : retail.long_pct.getD (PyVal.num 50) = PyVal.num q) :
    ∃ sv : ℤ, calcSentimentScore cot retail = Except.ok sv := by
  simp only [calcSentimentScore, hl]
  exact ⟨_, rfl⟩

/-- A string retail long percentage makes the sentiment scorer raise. -/
theorem sentiment_isErr (cot : Cot) (retail : Retail) (str : String)
    (hl : retail.long_pct.getD (PyVal.num 50) = PyVal.str str) :
    calcSentimentScore cot retail = Except.error
      "TypeError: comparison not supported between str and int" := by
  simp only [calcSentimentScore, hl]

/-- C7 amended: the engine performs no input validation — a report carries
an error key exactly when the retail long percentage is non-numeric; an
empty symbol is scored normally, and a wrong-typed long percentage is
swallowed by the broad handler, which returns a fallback zero report with
an error field instead of surfacing the failure. -/
theorem C7_no_validation_error :
    (∀ (now : String) (a : AssetData),
      (calculateAssetScore now a).error = none ↔
        (a.retail.long_pct.getD (PyVal.num 50)).isNum = true) ∧
    (calculateAssetScore "2024-01-01T00:00:00" emptySymbolObs).error = none ∧
    (calculateAssetScore "2024-01-01T00:00:00" wrongTypedObs).error =
      some "TypeError: comparison not supported between str and int" ∧
    (calculateAssetScore "2024-01-01T00:00:00" wrongTypedObs).total_score = 0 ∧
    (calculateAssetScore "2024-01-01T00:00:00" wrongTypedObs).bias = "Neutral" := by
  refine ⟨fun now a => ?_, rfl, rfl, rfl, rfl⟩
  rcases hl : a.retail.long_pct.getD (PyVal.num 50) with q | str
  · obtain ⟨sv, hok⟩ := sentiment_isOk a.cot a.retail q hl
    simp [calculateAssetScore, hok, hl, PyVal.isNum]
  · have herr := sentiment_isErr a.cot a.retail str hl
    simp [calculateAssetScore, herr, hl, PyVal.isNum]

/-- A report with its timestamp key removed. -/
def stripTimestamp (r : Report) : Report := { r with timestamp := none }

/-- C8 counterexample: the report embeds the wall clock, so two calls with
the identical observation at different instants give different reports. -/
theorem C8_counterexample :
    calculateAssetScore "2024-01-01T00:00:00" sampleAsset ≠
      calculateAssetScore "2024-01-01T00:00:01" sampleAsset := by
  intro h
  have ht := congrArg Report.timestamp h
  rw [show (calculateAssetScore "2024-01-01T00:00:00" sampleAsset).timestamp =
        some "2024-01-01T00:00:00" from rfl,
      show (calculateAssetScore "2024-01-01T00:00:01" sampleAsset).timestamp =
        some "2024-01-01T00:00:01" from rfl] at ht
  exact absurd (Option.some.inj ht) (by decide)

/-- C8 amended: the scoring math itself is deterministic — away from the
timestamp key, the report depends only on the observation, so two calls
with identical input agree on every score, the bias and the breakdown. -/
theorem C8_deterministic_modulo_timestamp :
    ∀ (nowA nowB : String) (a : AssetData),
      stripTimestamp (calculateAssetScore nowA a) =
        stripTimestamp (calculateAssetScore nowB a) := by
  intro nowA nowB a
  rcases hc : calcSentimentScore a.cot a.retail with e | sv <;>
    simp [calculateAssetScore, hc, stripTimestamp]

/-- Filtering an ordered insertion by a total-score class: the inserted
report lands after every report of a strictly greater score, so within its
own score class it comes first relative to the tail. -/
theorem filter_orderedInsert (k : ℤ) (x : Report) (l : List Report) :
    List.filter (fun r => decide (r.total_score = k)) (List.orderedInsert rankRel x l) =
      if x.total_score = k
      then x :: List.filter (fun r => decide (r.total_score = k)) l
      else List.filter (fun r => decide (r.total_score = k)) l := by
  rw [List.orderedInsert_eq_take_drop, List.filter_append]
  have hfl := congrArg (List.filter (fun r => decide (r.total_score = k)))
    (List.takeWhile_append_dropWhile (fun b => decide ¬ rankRel x b) l)
  rw [List.filter_append] at hfl
  by_cases hx : x.total_score = k
  · rw [if_pos hx]
    have htake : List.filter (fun r => decide (r.total_score = k))
        (List.takeWhile (fun b => decide ¬ rankRel x b) l) = [] := by
      rw [List.filter_eq_nil_iff]
      intro b hb
      have hbp := List.mem_takeWhile_imp hb
      simp only [decide_eq_true_eq, rankRel] at hbp
      simp only [decide_eq_true_eq]
      omega
    rw [htake, List.nil_append] at hfl
    rw [htake, List.nil_append, List.filter_cons_of_pos (by simp [hx]), hfl]
  · rw [if_neg hx]
    rw [List.filter_cons_of_neg (by simp [hx])]
    exact hfl

/-- Insertion sort with the descending rank order is stable: each
total-score class keeps its original relative order. -/
theorem filter_insertionSort (k : ℤ) (l : List Report) :
    List.filter (fun r => decide (r.total_score = k)) (List.insertionSort rankRel l) =
      List.filter (fun r => decide (r.total_score = k)) l := by
  induction l with
  | nil => rfl
  | cons a l ih =>
    show List.filter _ (List.orderedInsert rankRel a (List.insertionSort rankRel l)) = _
    rw [filter_orderedInsert]
    by_cases ha : a.total_score = k
    · rw [if_pos ha, ih, List.filter_cons_of_pos (by simp [ha])]
    · rw [if_neg ha, ih, List.filter_cons_of_neg (by simp [ha])]

/-- Observation with Bullish technicals and institutional sentiment,
scoring total 5 regardless of its symbol. -/
def fiveScoreObs (sym : String) : AssetData :=
  { symbol := some sym
    technical := bullishNormalTech
    cot := { positioning := some "Bullish", weekly_change := some 3 } }

/-- Scenario observation scoring total 5, submitted first. -/
def obsC : AssetData := fiveScoreObs "C"

/-- Scenario observation scoring total 5, submitted second. -/
def obsA : AssetData := fiveScoreObs "A"

/-- Scenario observation scoring total -1, submitted third. -/
def obsB : AssetData :=
  { symbol := some "B"
    seasonality := { current_month_avg_return := some (-0.7) } }

/-- The report produced for `fiveScoreObs` at the fixed sample instant. -/
def fiveScoreReport (sym : String) : Report :=
  { symbol := sym
    total_score := 5
    technical_score := 3
    sentiment_score := 2
    eco_score := 0
    seasonality_score := some 0
    bias := "Bullish"
    timestamp := some "2024-01-01T00:00:00"
    breakdown := some ⟨bullishNormalTech,
      { positioning := some "Bullish", weekly_change := some 3 }, {}, {}⟩
    error := none }

/-- The report produced for `obsB` at the fixed sample instant. -/
def minusOneReport : Report :=
  { symbol := "B"
    total_score := -1
    technical_score := 0
    sentiment_score := 0
    eco_score := 0
    seasonality_score := some (-1)
    bias := "Neutral"
    timestamp := some "2024-01-01T00:00:00"
    breakdown := some ⟨{}, {}, {}, {}⟩
    error := none }

/-- C9: ranking scores every observation and returns a permutation of the
per-asset reports, sorted descending by total score, with each total-score
class in original submission order (stability); in particular the inputs
C, A, B with totals 5, 5, -1 come back in the order C, A, B. -/
theorem C9_rank_assets :
    (∀ (now : String) (assets : List AssetData),
      (rankAssets now assets).Perm (assets.map (calculateAssetScore now))) ∧
    (∀ (now : String) (assets : List AssetData),
      List.Sorted rankRel (rankAssets now assets)) ∧
    (∀ (now : String) (assets : List AssetData) (k : ℤ),
      List.filter (fun r => decide (r.total_score = k)) (rankAssets now assets) =
        List.filter (fun r => decide (r.total_score = k))
          (assets.map (calculateAssetScore now))) ∧
    (rankAssets "2024-01-01T00:00:00" [obsC, obsA, obsB]).map Report.symbol =
      ["C", "A", "B"] := by
  refine ⟨fun now assets => List.perm_insertionSort rankRel _,
    fun now assets => List.sorted_insertionSort rankRel _,
    fun now assets k => filter_insertionSort k _, ?_⟩
  have h5 : ∀ (sym : String),
      calculateAssetScore "2024-01-01T00:00:00" (fiveScoreObs sym) =
        fiveScoreReport sym := by
    intro sym
    have hsent : calcSentimentScore
        { positioning := some "Bullish", weekly_change := some 3 } {} = Except.ok 2 := by
      norm_num [calcSentimentScore, pyLower_eval.1]
    norm_num [calculateAssetScore, fiveScoreObs, fiveScoreReport, hsent,
      calcTechnicalScore, calcEcoScore, calcSeasonalityScore, determineBias,
      smaContrib, surpriseContrib, pyRound, bullishNormalTech, pyLower_eval.1,
      pyLower_eval.2.2.2.1, show ("normal" : String) ≠ "high" from by decide]
  have hB : calculateAssetScore "2024-01-01T00:00:00" obsB = minusOneReport := by
    have hsent : calcSentimentScore {} {} = Except.ok 0 := by
      norm_num [calcSentimentScore, pyLower_eval.2.2.2.2.2.1,
        show ("neutral" : String) ≠ "bullish" from by decide,
        show ("neutral" : String) ≠ "bearish" from by decide]
    norm_num [calculateAssetScore, obsB, minusOneReport, hsent, calcTechnicalScore,
      calcEcoScore, calcSeasonalityScore, determineBias, smaContrib, surpriseContrib,
      pyRound, pyLower_eval.2.2.2.2.2.1, pyLower_eval.2.2.2.2.2.2,
      show ("neutral" : String) ≠ "bullish" from by decide,
      show ("neutral" : String) ≠ "bearish" from by decide,
      show ("normal" : String) ≠ "high" from by decide]
  simp only [rankAssets, List.map, show obsC = fiveScoreObs "C" from rfl,
    show obsA = fiveScoreObs "A" from rfl, h5, hB]
  norm_num [List.insertionSort, List.orderedInsert, rankRel, fiveScoreReport,
    minusOneReport]

/-- The fallback report the broad exception handler returns: symbol,
zeroed scores, Neutral bias and the error message; the seasonality,
timestamp and breakdown keys are absent. -/
def fallbackReport (sym e : String) : Report :=
  { symbol := sym
    total_score := 0
    technical_score := 0
    sentiment_score := 0
    eco_score := 0
    seasonality_score := none
    bias := "Neutral"
    timestamp := none
    breakdown := none
    error := some e }

/-- C10: whenever scoring raises internally, the handler returns the
fallback report — the observation's symbol, all-zero scores, Neutral bias
and an error key, with no seasonality_score and no breakdown — so ranking
never propagates an exception and always returns exactly one report per
input observation. -/
theorem C10_fallback_report :
    (∀ (now : String) (a : AssetData) (e : String),
      calcSentimentScore a.cot a.retail = Except.error e →
      calculateAssetScore now a = fallbackReport (a.symbol.getD "UNKNOWN") e) ∧
    (∀ (now : String) (assets : List AssetData),
      (rankAssets now assets).length = assets.length) := by
  constructor
  · intro now a e h
    simp only [calculateAssetScore, h, fallbackReport]
  · intro now assets
    have hp := (List.perm_insertionSort rankRel (assets.map (calculateAssetScore now))).length_eq
    simp only [rankAssets, List.length_map] at hp ⊢
    exact hp

/-- Witness for C10: the wrong-typed observation raises in the sentiment
scorer and produces exactly the fallback report, and a one-element batch
yields one report. -/
theorem C10_fallback_report_witness :
    calcSentimentScore wrongTypedObs.cot wrongTypedObs.retail = Except.error
      "TypeError: comparison not supported between str and int" ∧
    calculateAssetScore "2024-01-01T00:00:00" wrongTypedObs =
      fallbackReport "GOLD" "TypeError: comparison not supported between str and int" ∧
    (rankAssets "2024-01-01T00:00:00" [wrongTypedObs]).length = 1 :=
  ⟨rfl, C10_fallback_report.1 "2024-01-01T00:00:00" wrongTypedObs _ rfl,
    C10_fallback_report.2 "2024-01-01T00:00:00" [wrongTypedObs]⟩
